import Mathlib

/-!
Shallow embedding of the pvsadm image-import and image-client code
(`pkg/client/image/image.go` and `cmd/image/import/import.go`).

External SDK effects (the power-cloud image POST, the resource controller,
the S3 client, regular-expression compilation) are modelled as oracle
parameters: pure functions or `Except` values supplied to the embedded
functions, so that each embedded function performs exactly the sequence of
calls and checks that the Go source performs.
-/

/-- Go `error` values are modelled as their message strings. -/
abbrev GoError := String

deriving instance DecidableEq for Except

/-- Result of a Go function that may panic (nil-pointer dereference),
return an error, or return a value. -/
inductive PResult (α : Type) where
  | panic
  | error (e : GoError)
  | ok (v : α)
deriving DecidableEq

/-- `models.ImageReference` as used by `GetAllPurgeable`: only the
dereferenced `Name` and `CreationDate` fields matter.  `CreationDate`
(a `strfmt.DateTime`) is modelled as an integer timestamp. -/
structure ImageRef where
  Name : String
  CreationDate : Int
deriving DecidableEq

/-- `models.Image`: the payload returned by the image POST; only the fields
the embedded code reads are kept. -/
structure Image where
  Name : String
  State : String
deriving DecidableEq

/-- `models.CreateImage`: the request body built by `ImportImage`
(`image.go` lines 47-57).  The Go `Source *string` is modelled as the
string it points to. -/
structure CreateImage where
  ImageName : String
  ImageFilename : String
  Region : String
  AccessKey : String
  SecretKey : String
  BucketName : String
  OsType : String
  DiskType : String
  Source : String
deriving DecidableEq

/-- The two responses of `PcloudCloudinstancesImagesPost` when it returns no
error: `resp1` (the OK response, possibly nil) and the payload of `resp2`
(the Created response). -/
structure PostResponses where
  resp1 : Option Unit
  payload : Image
deriving DecidableEq

/-- The request body `ImportImage` constructs (`image.go` lines 46-57):
every field is the matching argument and `Source` is the constant "url". -/
def importBody (imageName s3Filename region accessKey secretKey bucketName
    osType storageType : String) : CreateImage :=
  { ImageName := imageName
    ImageFilename := s3Filename
    Region := region
    AccessKey := accessKey
    SecretKey := secretKey
    BucketName := bucketName
    OsType := osType
    DiskType := storageType
    Source := "url" }

/-- `Client.ImportImage` (`image.go` lines 45-76).  `post` is the oracle for
the SDK call `PcloudCloudinstancesImagesPost`, taking the cloud instance id
and the request body.  On SDK error the error is forwarded; a non-nil
`resp1` yields the "Failed to initiate the import job" error; otherwise the
payload of `resp2` is returned. -/
def ImportImage (post : String → CreateImage → Except GoError PostResponses)
    (instanceID imageName s3Filename region accessKey secretKey bucketName
      osType storageType : String) : Except GoError Image :=
  match post instanceID (importBody imageName s3Filename region accessKey
      secretKey bucketName osType storageType) with
  | .error e => .error e
  | .ok r =>
    match r.resp1 with
    | some _ => .error "Failed to initiate the import job"
    | none => .ok r.payload

/-- Prepend an image to the candidate list inside a `PResult`
(the `append` in `GetAllPurgeable`'s loop, with panic/error propagated). -/
def pcons (img : ImageRef) : PResult (List ImageRef) → PResult (List ImageRef)
  | .panic => .panic
  | .error e => .error e
  | .ok l => .ok (img :: l)

/-- The loop of `GetAllPurgeable` (`image.go` lines 85-95).  `compile` is the
oracle for `regexp.Compile`: `none` models a compile error (whose error
value the Go code discards, leaving a nil `*Regexp`); calling `MatchString`
on that nil pointer is a panic.  `isPurgeable` is the oracle for
`pkg.IsPurgeable`. -/
def purgeLoop (compile : String → Option (String → Bool))
    (isPurgeable : Int → Int → Int → Bool)
    (before since : Int) (expr : String) :
    List ImageRef → PResult (List ImageRef)
  | [] => .ok []
  | img :: rest =>
    if expr == "" then
      if isPurgeable img.CreationDate before since then
        pcons img (purgeLoop compile isPurgeable before since expr rest)
      else
        purgeLoop compile isPurgeable before since expr rest
    else
      match compile expr with
      | none => .panic
      | some m =>
        if m img.Name then
          if isPurgeable img.CreationDate before since then
            pcons img (purgeLoop compile isPurgeable before since expr rest)
          else
            purgeLoop compile isPurgeable before since expr rest
        else
          purgeLoop compile isPurgeable before since expr rest

/-- `Client.GetAllPurgeable` (`image.go` lines 78-97).  `getAll` is the
result of the underlying `GetAll` SDK call; on its failure the error is
wrapped with "failed to get the list of instances: " and no candidates are
produced; otherwise the loop filters the images. -/
def GetAllPurgeable (getAll : Except GoError (List ImageRef))
    (compile : String → Option (String → Bool))
    (isPurgeable : Int → Int → Int → Bool)
    (before since : Int) (expr : String) : PResult (List ImageRef) :=
  match getAll with
  | .error e => .error ("failed to get the list of instances: " ++ e)
  | .ok images => purgeLoop compile isPurgeable before since expr images

lemma purgeLoop_filter (compile : String → Option (String → Bool))
    (isPurgeable : Int → Int → Int → Bool) (before since : Int)
    (expr : String) (m : String → Bool)
    (h : expr = "" ∨ compile expr = some m) (imgs : List ImageRef) :
    purgeLoop compile isPurgeable before since expr imgs =
      .ok (imgs.filter fun i =>
        (expr == "" || m i.Name) && isPurgeable i.CreationDate before since) := by
  induction imgs with
  | nil => simp [purgeLoop]
  | cons i t ih =>
    by_cases he : expr = ""
    · subst he
      by_cases hp : isPurgeable i.CreationDate before since
      · simp [purgeLoop, hp, pcons, ih, List.filter_cons]
      · simp [purgeLoop, hp, ih, List.filter_cons]
    · have heb : (expr == "") = false := beq_eq_false_iff_ne.mpr he
      rcases h with h | h
      · exact absurd h he
      · by_cases hm : m i.Name
        · by_cases hp : isPurgeable i.CreationDate before since
          · simp [purgeLoop, heb, h, hm, hp, pcons, ih, List.filter_cons]
          · simp [purgeLoop, heb, h, hm, hp, ih, List.filter_cons]
        · simp [purgeLoop, heb, h, hm, ih, List.filter_cons]

/-- C1: with a successful `GetAll` and a pattern that is empty or compiles
to matcher `m`, `GetAllPurgeable` returns exactly the images whose name
matches (when the pattern is non-empty) and whose creation date is accepted
by `IsPurgeable`, in `GetAll`'s order: a `List.filter` of the listing. -/
theorem getAllPurgeable_is_filter
    (imgs : List ImageRef) (compile : String → Option (String → Bool))
    (isPurgeable : Int → Int → Int → Bool) (before since : Int)
    (expr : String) (m : String → Bool)
    (h : expr = "" ∨ compile expr = some m) :
    GetAllPurgeable (.ok imgs) compile isPurgeable before since expr =
      .ok (imgs.filter fun i =>
        (expr == "" || m i.Name) && isPurgeable i.CreationDate before since) := by
  simpa [GetAllPurgeable] using
    purgeLoop_filter compile isPurgeable before since expr m h imgs

/-- Witness for C1 at a concrete listing and pattern. -/
theorem getAllPurgeable_is_filter_witness :
    GetAllPurgeable (.ok [⟨"alpha", 0⟩, ⟨"beta", 5⟩, ⟨"alpha", 7⟩])
      (fun _ => some (fun n => n == "alpha"))
      (fun c _ _ => decide (c < 6)) 1 2 "alpha" =
      .ok [⟨"alpha", 0⟩] :=
  (getAllPurgeable_is_filter [⟨"alpha", 0⟩, ⟨"beta", 5⟩, ⟨"alpha", 7⟩]
    (fun _ => some (fun n => n == "alpha")) (fun c _ _ => decide (c < 6)) 1 2
    "alpha" (fun n => n == "alpha") (Or.inr rfl)).trans (by decide)

/-- C6: when the underlying `GetAll` call fails, `GetAllPurgeable` forwards
the error wrapped with the context string
"failed to get the list of instances: " and produces no candidate list. -/
theorem getAllPurgeable_propagates_error
    (compile : String → Option (String → Bool))
    (isPurgeable : Int → Int → Int → Bool) (before since : Int)
    (expr e : String) :
    GetAllPurgeable (.error e) compile isPurgeable before since expr =
      .error ("failed to get the list of instances: " ++ e) := rfl

/-- C8: when the pattern is non-empty and does not compile, the compile
error is discarded and, on any non-empty image listing, the match is
attempted on the nil regexp, so `GetAllPurgeable` panics rather than
returning an error. -/
theorem getAllPurgeable_invalid_regex_panics
    (compile : String → Option (String → Bool))
    (isPurgeable : Int → Int → Int → Bool) (before since : Int)
    (expr : String) (i : ImageRef) (rest : List ImageRef)
    (hne : expr ≠ "") (hc : compile expr = none) :
    GetAllPurgeable (.ok (i :: rest)) compile isPurgeable before since expr =
      .panic := by
  have heb : (expr == "") = false := beq_eq_false_iff_ne.mpr hne
  simp [GetAllPurgeable, purgeLoop, heb, hc]

/-- Witness for C8 at a concrete invalid pattern and one-image listing. -/
theorem getAllPurgeable_invalid_regex_panics_witness :
    ("[" ≠ "" ∧ (fun (_ : String) => (none : Option (String → Bool))) "[" = none) ∧
    GetAllPurgeable (.ok [⟨"a", 0⟩]) (fun _ => none) (fun _ _ _ => true) 1 2 "[" =
      .panic :=
  ⟨⟨by decide, rfl⟩,
    getAllPurgeable_invalid_regex_panics (fun _ => none) (fun _ _ _ => true)
      1 2 "[" ⟨"a", 0⟩ [] (by decide) rfl⟩

/-- Counterexample to C2 as stated: a POST whose SDK call succeeds (no
error) but whose first (OK) response is non-nil makes `ImportImage` return
an error of its own, so "non-nil error iff the SDK call errors" fails. -/
theorem importImage_error_iff_counterexample :
    (fun (_ : String) (_ : CreateImage) =>
        (Except.ok ⟨some (), ⟨"img", "queued"⟩⟩ : Except GoError PostResponses)) "pid"
        (importBody "name" "file" "reg" "ak" "sk" "buck" "ostype" "stype") =
      .ok ⟨some (), ⟨"img", "queued"⟩⟩ ∧
    ImportImage (fun _ _ => .ok ⟨some (), ⟨"img", "queued"⟩⟩)
      "pid" "name" "file" "reg" "ak" "sk" "buck" "ostype" "stype" =
      .error "Failed to initiate the import job" :=
  ⟨rfl, rfl⟩

/-- C2 amended: `ImportImage` forwards an SDK error unchanged; when the SDK
call succeeds it fails with "Failed to initiate the import job" if the
first (OK) response is non-nil, and otherwise returns the payload of the
second response with no error. -/
theorem importImage_error_conditions
    (post : String → CreateImage → Except GoError PostResponses)
    (instanceID imageName s3Filename region accessKey secretKey bucketName
      osType storageType : String) :
    (∀ e, post instanceID (importBody imageName s3Filename region accessKey
        secretKey bucketName osType storageType) = .error e →
      ImportImage post instanceID imageName s3Filename region accessKey
        secretKey bucketName osType storageType = .error e) ∧
    (∀ p, post instanceID (importBody imageName s3Filename region accessKey
        secretKey bucketName osType storageType) = .ok ⟨some (), p⟩ →
      ImportImage post instanceID imageName s3Filename region accessKey
        secretKey bucketName osType storageType =
        .error "Failed to initiate the import job") ∧
    (∀ p, post instanceID (importBody imageName s3Filename region accessKey
        secretKey bucketName osType storageType) = .ok ⟨none, p⟩ →
      ImportImage post instanceID imageName s3Filename region accessKey
        secretKey bucketName osType storageType = .ok p) := by
  refine ⟨?_, ?_, ?_⟩ <;> intro p hp <;> simp [ImportImage, hp]

/-- Witness for the amended C2: a successful POST with nil first response
returns the payload. -/
theorem importImage_error_conditions_witness :
    ImportImage (fun _ _ => .ok ⟨none, ⟨"img", "queued"⟩⟩)
      "pid" "name" "file" "reg" "ak" "sk" "buck" "ostype" "stype" =
      .ok ⟨"img", "queued"⟩ :=
  (importImage_error_conditions (fun _ _ => .ok ⟨none, ⟨"img", "queued"⟩⟩)
    "pid" "name" "file" "reg" "ak" "sk" "buck" "ostype" "stype").2.2
    ⟨"img", "queued"⟩ rfl

/-- C10: the request body `ImportImage` sends has `Source = "url"` and every
other field equal to the matching argument; `ImportImage` consults its POST
oracle only at that body. -/
theorem importImage_body_fields
    (post post' : String → CreateImage → Except GoError PostResponses)
    (instanceID imageName s3Filename region accessKey secretKey bucketName
      osType storageType : String) :
    importBody imageName s3Filename region accessKey secretKey bucketName
        osType storageType =
      ⟨imageName, s3Filename, region, accessKey, secretKey, bucketName,
        osType, storageType, "url"⟩ ∧
    (post instanceID (importBody imageName s3Filename region accessKey
        secretKey bucketName osType storageType) =
      post' instanceID (importBody imageName s3Filename region accessKey
        secretKey bucketName osType storageType) →
      ImportImage post instanceID imageName s3Filename region accessKey
          secretKey bucketName osType storageType =
        ImportImage post' instanceID imageName s3Filename region accessKey
          secretKey bucketName osType storageType) := by
  refine ⟨rfl, fun h => ?_⟩
  simp [ImportImage, h]

/-- Witness for C10: two POST oracles that agree on the body with
`Source = "url"` give the same `ImportImage` result. -/
theorem importImage_body_fields_witness :
    ImportImage (fun _ b => .ok ⟨none, ⟨b.Source, "queued"⟩⟩)
      "i" "n" "f" "r" "a" "s" "b" "o" "t" =
    ImportImage (fun _ _ => .ok ⟨none, ⟨"url", "queued"⟩⟩)
      "i" "n" "f" "r" "a" "s" "b" "o" "t" :=
  (importImage_body_fields (fun _ b => .ok ⟨none, ⟨b.Source, "queued"⟩⟩)
    (fun _ _ => .ok ⟨none, ⟨"url", "queued"⟩⟩)
    "i" "n" "f" "r" "a" "s" "b" "o" "t").2 rfl

/-! ## The import command (`cmd/image/import/import.go`) -/

/-- Prefix test on character lists, used to embed Go `strings.Contains`. -/
def hasPrefixChars : List Char → List Char → Bool
  | [], _ => true
  | _ :: _, [] => false
  | a :: as, b :: bs => a == b && hasPrefixChars as bs

/-- Substring test on character lists. -/
def hasSubstrChars (sub : List Char) : List Char → Bool
  | [] => sub.isEmpty
  | c :: rest => hasPrefixChars sub (c :: rest) || hasSubstrChars sub rest

/-- Go `strings.Contains s sub`. -/
def goContains (s sub : String) : Bool := hasSubstrChars sub.data s.data

/-- ASCII lower-casing of one character, used to embed Go
`strings.ToLower` on the ASCII flag values the command handles. -/
def lowerChar (c : Char) : Char :=
  if 'A' ≤ c ∧ c ≤ 'Z' then Char.ofNat (c.toNat + 32) else c

/-- Go `strings.ToLower` (on ASCII strings). -/
def goToLower (s : String) : String := ⟨s.data.map lowerChar⟩

/-- Modelled from the spec: `utils.Contains` (package `pkg/utils`, not under
`src/`) is used by the flag validation against the lists of allowable
values; the spec's "allowable values are [...]" makes it membership of a
string in a list. -/
def Contains (s : List String) (e : String) : Bool := s.contains e

/-- `validOsType` (`import.go` line 50). -/
def validOsType : List String := ["aix", "ibmi", "redhat", "sles"]

/-- `validStorageType` (`import.go` line 51). -/
def validStorageType : List String := ["tier3", "tier1"]

/-- The `pkg.ImageCMDOptions` fields the import command reads. -/
structure Options where
  OsType : String
  StorageType : String
  BucketName : String
  Region : String
  ImageFilename : String
  AccessKey : String
  SecretKey : String
  ImageName : String
  ServiceCredName : String
  InstanceID : String
  InstanceName : String
deriving DecidableEq

/-- `rcv2.ResourceInstance`: the dereferenced `Crn`, `Name` and `ID`
fields the command reads. -/
structure ResourceInstance where
  Crn : String
  Name : String
  ID : String
deriving DecidableEq

/-- A resource key's credentials, reduced to the outcome of marshalling its
`cos_hmac_keys` property and unmarshalling it into
`(access_key_id, secret_access_key)`; an `.error` models a failure of
either JSON step. -/
structure ResourceKey where
  cosHmacKeys : Except GoError (String × String)
deriving DecidableEq

/-- The argument tuple of the final `ImportImage` call
(`import.go` lines 266-267). -/
structure ImportArgs where
  instanceID : String
  imageName : String
  imageFilename : String
  region : String
  accessKey : String
  secretKey : String
  bucketName : String
  osType : String
  storageType : String
deriving DecidableEq

/-- One remote SDK call issued by the import command, with the arguments
that identify it. -/
inductive Event where
  | newClientCall
  | newAuthCall
  | newResourceControllerCall
  | listResourceInstancesCall
  | newS3ClientCall (resourceName : String)
  | listBucketsCall (resourceName : String)
  | checkObjectCall (bucketName objectName : String)
  | listResourceKeysCall (credName : String)
  | createResourceKeyCall (credName cosID : String) (hmac : Bool)
  | newPVMClientCall
  | importImageCall (args : ImportArgs)
deriving DecidableEq

/-- The oracles for every remote call the import command makes, in source
order: client construction, IAM authentication, the resource controller,
instance listing, per-instance S3 client construction and bucket listing
(keyed by the instance name), the object-existence check (keyed by the
instance name whose S3 client is in scope), resource-key listing and
creation, PVM client construction (returning `pvmclient.InstanceID`), and
the image import. -/
structure World where
  newClient : Except GoError Unit
  newIamAuthenticator : Except GoError Unit
  newResourceController : Except GoError Unit
  listResourceInstances : Except GoError (List ResourceInstance)
  newS3Client : String → String → Except GoError Unit
  listBuckets : String → Except GoError (List String)
  checkIfObjectExists : String → String → String → Bool
  listResourceKeys : String → Except GoError (List ResourceKey)
  createResourceKey : String → String → Bool → Except GoError ResourceKey
  newPVMClient : Except GoError String
  importImage : ImportArgs → Except GoError Image

/-- Outcome of `RunE`: `os.Exit`, an error return, or a nil return. -/
inductive RunResult where
  | exit (code : Nat)
  | error (e : GoError)
  | ok
deriving DecidableEq

/-- The `cosOfBucket` closure (`import.go` lines 82-101): scan the resource
instances in order; for each whose CRN contains "cloud-object-storage",
build an S3 client (skipping the instance on failure), list its buckets
(skipping on failure), and return the first instance owning a bucket named
`opt.BucketName`.  Also returns the trace of SDK calls the scan issues. -/
def cosOfBucket (w : World) (opt : Options) :
    List ResourceInstance → Option ResourceInstance × List Event
  | [] => (none, [])
  | r :: rest =>
    if goContains r.Crn "cloud-object-storage" then
      match w.newS3Client r.Name opt.Region with
      | .error _ =>
        let res := cosOfBucket w opt rest
        (res.1, .newS3ClientCall r.Name :: res.2)
      | .ok _ =>
        match w.listBuckets r.Name with
        | .error _ =>
          let res := cosOfBucket w opt rest
          (res.1, .newS3ClientCall r.Name :: .listBucketsCall r.Name :: res.2)
        | .ok buckets =>
          if buckets.contains opt.BucketName then
            (some r, [.newS3ClientCall r.Name, .listBucketsCall r.Name])
          else
            let res := cosOfBucket w opt rest
            (res.1, .newS3ClientCall r.Name :: .listBucketsCall r.Name :: res.2)
    else
      cosOfBucket w opt rest

/-- The credential block (`import.go` lines 119-165): when either key flag
is empty, list the resource keys named `ServiceCredName`; reuse the first
one, or create one on the COS instance `cosID` with parameter `HMAC=true`;
then extract `(access_key_id, secret_access_key)` from the credential's
`cos_hmac_keys` property.  Returns the keys to use (the flags unchanged
when both are non-empty) and the trace of SDK calls. -/
def credStep (w : World) (opt : Options) (cosID : String) :
    Except GoError (String × String) × List Event :=
  if opt.AccessKey == "" || opt.SecretKey == "" then
    match w.listResourceKeys opt.ServiceCredName with
    | .error e =>
      (.error ("failed to list the service credentials: " ++ e),
        [.listResourceKeysCall opt.ServiceCredName])
    | .ok keys =>
      match keys with
      | [] =>
        match w.createResourceKey opt.ServiceCredName cosID true with
        | .error e =>
          (.error e,
            [.listResourceKeysCall opt.ServiceCredName,
              .createResourceKeyCall opt.ServiceCredName cosID true])
        | .ok key =>
          match key.cosHmacKeys with
          | .error e =>
            (.error e,
              [.listResourceKeysCall opt.ServiceCredName,
                .createResourceKeyCall opt.ServiceCredName cosID true])
          | .ok (a, s) =>
            (.ok (a, s),
              [.listResourceKeysCall opt.ServiceCredName,
                .createResourceKeyCall opt.ServiceCredName cosID true])
      | k :: _ =>
        match k.cosHmacKeys with
        | .error e => (.error e, [.listResourceKeysCall opt.ServiceCredName])
        | .ok (a, s) =>
          (.ok (a, s), [.listResourceKeysCall opt.ServiceCredName])
  else
    (.ok (opt.AccessKey, opt.SecretKey), [])

/-- `Cmd.RunE` (`import.go` lines 42-177): flag validation (`os.Exit(1)` on
an invalid OS or storage type), client/authenticator/resource-controller
construction, instance listing, the `cosOfBucket` scan, the
object-existence check, the credential block, PVM client construction and
the final import call, each failure returning immediately.  Paired with the
trace of SDK calls issued. -/
def runE (w : World) (opt : Options) : RunResult × List Event :=
  if opt.OsType != "" && !(Contains validOsType (goToLower opt.OsType)) then
    (.exit 1, [])
  else if !(Contains validStorageType (goToLower opt.StorageType)) then
    (.exit 1, [])
  else
    match w.newClient with
    | .error e => (.error e, [.newClientCall])
    | .ok _ =>
      match w.newIamAuthenticator with
      | .error e => (.error e, [.newClientCall, .newAuthCall])
      | .ok _ =>
        match w.newResourceController with
        | .error e =>
          (.error e, [.newClientCall, .newAuthCall, .newResourceControllerCall])
        | .ok _ =>
          match w.listResourceInstances with
          | .error e =>
            (.error e,
              [.newClientCall, .newAuthCall, .newResourceControllerCall,
                .listResourceInstancesCall])
          | .ok rs =>
            let pre : List Event :=
              [.newClientCall, .newAuthCall, .newResourceControllerCall,
                .listResourceInstancesCall]
            let scan := cosOfBucket w opt rs
            match scan.1 with
            | none =>
              (.error ("failed to find the COS instance for the bucket mentioned: "
                  ++ opt.BucketName), pre ++ scan.2)
            | some r =>
              let tr1 := pre ++ scan.2 ++
                [.checkObjectCall opt.BucketName opt.ImageFilename]
              if !(w.checkIfObjectExists r.Name opt.BucketName opt.ImageFilename) then
                (.error ("failed to found the object " ++ opt.ImageFilename
                    ++ " in " ++ opt.BucketName ++ " bucket"), tr1)
              else
                match credStep w opt r.ID with
                | (.error e, ctr) => (.error e, tr1 ++ ctr)
                | (.ok (accessKey, secretKey), ctr) =>
                  let tr2 := tr1 ++ ctr ++ [Event.newPVMClientCall]
                  match w.newPVMClient with
                  | .error e => (.error e, tr2)
                  | .ok pvmInstanceID =>
                    let args : ImportArgs :=
                      ⟨pvmInstanceID, opt.ImageName, opt.ImageFilename,
                        opt.Region, accessKey, secretKey, opt.BucketName,
                        (goToLower opt.OsType), (goToLower opt.StorageType)⟩
                    let tr3 := tr2 ++ [Event.importImageCall args]
                    match w.importImage args with
                    | .error e => (.error e, tr3)
                    | .ok _ => (.ok, tr3)

/-- The test the `cosOfBucket` scan effectively applies to one resource
instance: a CRN containing "cloud-object-storage", successful S3-client
construction and bucket listing, and a bucket named `opt.BucketName` in the
listing. -/
def bucketMatch (w : World) (opt : Options) (r : ResourceInstance) : Bool :=
  goContains r.Crn "cloud-object-storage" &&
    match w.newS3Client r.Name opt.Region with
    | .error _ => false
    | .ok _ =>
      match w.listBuckets r.Name with
      | .error _ => false
      | .ok buckets => buckets.contains opt.BucketName

lemma cosOfBucket_fst_eq_find (w : World) (opt : Options)
    (rs : List ResourceInstance) :
    (cosOfBucket w opt rs).1 = rs.find? (bucketMatch w opt) := by
  induction rs with
  | nil => simp [cosOfBucket]
  | cons r rest ih =>
    by_cases hcrn : goContains r.Crn "cloud-object-storage"
    · cases hs3 : w.newS3Client r.Name opt.Region with
      | error e =>
        simp [cosOfBucket, bucketMatch, hcrn, hs3, ih, List.find?_cons]
      | ok u =>
        cases hlb : w.listBuckets r.Name with
        | error e =>
          simp [cosOfBucket, bucketMatch, hcrn, hs3, hlb, ih, List.find?_cons]
        | ok buckets =>
          by_cases hb : opt.BucketName ∈ buckets
          · simp [cosOfBucket, bucketMatch, hcrn, hs3, hlb, hb, List.find?_cons]
          · simp [cosOfBucket, bucketMatch, hcrn, hs3, hlb, hb, ih,
              List.find?_cons]
    · simp [cosOfBucket, bucketMatch, hcrn, ih, List.find?_cons]

lemma cosOfBucket_trace_mem (w : World) (opt : Options)
    (rs : List ResourceInstance) :
    ∀ ev ∈ (cosOfBucket w opt rs).2, ∃ r ∈ rs,
      ev = .newS3ClientCall r.Name ∨ ev = .listBucketsCall r.Name := by
  induction rs with
  | nil => simp [cosOfBucket]
  | cons r rest ih =>
    intro ev hev
    by_cases hcrn : goContains r.Crn "cloud-object-storage"
    · cases hs3 : w.newS3Client r.Name opt.Region with
      | error e =>
        simp [cosOfBucket, hcrn, hs3] at hev
        rcases hev with rfl | hev
        · exact ⟨r, List.mem_cons_self r rest, Or.inl rfl⟩
        · obtain ⟨r', hr', hc⟩ := ih ev hev
          exact ⟨r', List.mem_cons_of_mem r hr', hc⟩
      | ok u =>
        cases hlb : w.listBuckets r.Name with
        | error e =>
          simp [cosOfBucket, hcrn, hs3, hlb] at hev
          rcases hev with rfl | rfl | hev
          · exact ⟨r, List.mem_cons_self r rest, Or.inl rfl⟩
          · exact ⟨r, List.mem_cons_self r rest, Or.inr rfl⟩
          · obtain ⟨r', hr', hc⟩ := ih ev hev
            exact ⟨r', List.mem_cons_of_mem r hr', hc⟩
        | ok buckets =>
          by_cases hb : opt.BucketName ∈ buckets
          · simp [cosOfBucket, hcrn, hs3, hlb, hb] at hev
            rcases hev with rfl | rfl
            · exact ⟨r, List.mem_cons_self r rest, Or.inl rfl⟩
            · exact ⟨r, List.mem_cons_self r rest, Or.inr rfl⟩
          · simp [cosOfBucket, hcrn, hs3, hlb, hb] at hev
            rcases hev with rfl | rfl | hev
            · exact ⟨r, List.mem_cons_self r rest, Or.inl rfl⟩
            · exact ⟨r, List.mem_cons_self r rest, Or.inr rfl⟩
            · obtain ⟨r', hr', hc⟩ := ih ev hev
              exact ⟨r', List.mem_cons_of_mem r hr', hc⟩
    · simp [cosOfBucket, hcrn] at hev
      obtain ⟨r', hr', hc⟩ := ih ev hev
      exact ⟨r', List.mem_cons_of_mem r hr', hc⟩

lemma cosOfBucket_trace_nodup (w : World) (opt : Options)
    (rs : List ResourceInstance)
    (h : (rs.map ResourceInstance.Name).Nodup) :
    ((cosOfBucket w opt rs).2).Nodup := by
  induction rs with
  | nil => simp [cosOfBucket]
  | cons r rest ih =>
    simp only [List.map_cons, List.nodup_cons] at h
    obtain ⟨hnm, hrest⟩ := h
    have ihn := ih hrest
    have hnot : ∀ ev ∈ (cosOfBucket w opt rest).2,
        ev ≠ .newS3ClientCall r.Name ∧ ev ≠ .listBucketsCall r.Name := by
      intro ev hev
      obtain ⟨r', hr', hc⟩ := cosOfBucket_trace_mem w opt rest ev hev
      have hne : r'.Name ≠ r.Name := by
        intro hEq
        exact hnm (hEq ▸ List.mem_map_of_mem ResourceInstance.Name hr')
      rcases hc with rfl | rfl
      · refine ⟨fun hcontr => hne ?_, by simp⟩
        injection hcontr
      · refine ⟨by simp, fun hcontr => hne ?_⟩
        injection hcontr
    by_cases hcrn : goContains r.Crn "cloud-object-storage"
    · cases hs3 : w.newS3Client r.Name opt.Region with
      | error e =>
        simp only [cosOfBucket, hcrn, hs3, if_true]
        refine List.nodup_cons.mpr ⟨fun hmem => ?_, ihn⟩
        exact (hnot _ hmem).1 rfl
      | ok u =>
        cases hlb : w.listBuckets r.Name with
        | error e =>
          simp only [cosOfBucket, hcrn, hs3, hlb, if_true]
          refine List.nodup_cons.mpr ⟨?_, List.nodup_cons.mpr
            ⟨fun hmem => (hnot _ hmem).2 rfl, ihn⟩⟩
          intro hmem
          rcases List.mem_cons.mp hmem with hEq | hmem'
          · exact absurd hEq (by simp)
          · exact (hnot _ hmem').1 rfl
        | ok buckets =>
          by_cases hb : opt.BucketName ∈ buckets
          · simp [cosOfBucket, hcrn, hs3, hlb, hb]
          · have hbc : buckets.contains opt.BucketName = false := by simpa using hb
            simp only [cosOfBucket, hcrn, hs3, hlb, hbc, if_true,
              Bool.false_eq_true, if_false]
            refine List.nodup_cons.mpr ⟨?_, List.nodup_cons.mpr
              ⟨fun hmem => (hnot _ hmem).2 rfl, ihn⟩⟩
            intro hmem
            rcases List.mem_cons.mp hmem with hEq | hmem'
            · exact absurd hEq (by simp)
            · exact (hnot _ hmem').1 rfl
    · simp only [cosOfBucket, hcrn, if_false]
      exact ihn

lemma credStep_trace_shape (w : World) (opt : Options) (cosID : String) :
    (credStep w opt cosID).2 = [] ∨
    (credStep w opt cosID).2 = [.listResourceKeysCall opt.ServiceCredName] ∨
    (credStep w opt cosID).2 =
      [.listResourceKeysCall opt.ServiceCredName,
        .createResourceKeyCall opt.ServiceCredName cosID true] := by
  unfold credStep
  repeat' split
  all_goals simp

lemma credStep_trace_nodup (w : World) (opt : Options) (cosID : String) :
    ((credStep w opt cosID).2).Nodup := by
  rcases credStep_trace_shape w opt cosID with h | h | h <;> rw [h] <;> simp

lemma credStep_trace_mem (w : World) (opt : Options) (cosID : String) :
    ∀ ev ∈ (credStep w opt cosID).2,
      ev = .listResourceKeysCall opt.ServiceCredName ∨
      ev = .createResourceKeyCall opt.ServiceCredName cosID true := by
  rcases credStep_trace_shape w opt cosID with h | h | h <;> rw [h] <;>
    intro ev hev <;> simp at hev <;> tauto

/-- C3: the command locates the COS instance owning the bucket by a linear
scan with early exit over the listed resource instances — the first
instance, in list order, with a COS CRN whose client creation and bucket
listing succeed and whose bucket list contains `BucketName`
(`List.find?` of `bucketMatch`); when no instance matches, the command
fails with the "failed to find the COS instance" error and issues no
object check, no credential call, and no import call. -/
theorem import_cos_scan_linear (w : World) (opt : Options)
    (rs : List ResourceInstance)
    (hOs : (opt.OsType != "" && !(Contains validOsType (goToLower opt.OsType))) = false)
    (hSt : (!(Contains validStorageType (goToLower opt.StorageType))) = false)
    (hc : w.newClient = .ok ())
    (ha : w.newIamAuthenticator = .ok ())
    (hrc : w.newResourceController = .ok ())
    (hli : w.listResourceInstances = .ok rs) :
    (cosOfBucket w opt rs).1 = rs.find? (bucketMatch w opt) ∧
    (rs.find? (bucketMatch w opt) = none →
      runE w opt =
        (.error ("failed to find the COS instance for the bucket mentioned: "
            ++ opt.BucketName),
          [.newClientCall, .newAuthCall, .newResourceControllerCall,
            .listResourceInstancesCall] ++ (cosOfBucket w opt rs).2) ∧
      ∀ ev ∈ (runE w opt).2,
        (∀ b o, ev ≠ .checkObjectCall b o) ∧
        (∀ n, ev ≠ .listResourceKeysCall n) ∧
        (∀ n c hm, ev ≠ .createResourceKeyCall n c hm) ∧
        (∀ a, ev ≠ .importImageCall a)) := by
  refine ⟨cosOfBucket_fst_eq_find w opt rs, fun hnone => ?_⟩
  have hfst : (cosOfBucket w opt rs).1 = none :=
    (cosOfBucket_fst_eq_find w opt rs).trans hnone
  have hrun : runE w opt =
      (.error ("failed to find the COS instance for the bucket mentioned: "
          ++ opt.BucketName),
        [.newClientCall, .newAuthCall, .newResourceControllerCall,
          .listResourceInstancesCall] ++ (cosOfBucket w opt rs).2) := by
    simp [runE, hOs, hSt, hc, ha, hrc, hli, hfst]
  refine ⟨hrun, ?_⟩
  intro ev hev
  rw [hrun] at hev
  simp only [List.cons_append, List.nil_append, List.mem_cons] at hev
  rcases hev with rfl | rfl | rfl | rfl | hscan
  · exact ⟨by simp, by simp, by simp, by simp⟩
  · exact ⟨by simp, by simp, by simp, by simp⟩
  · exact ⟨by simp, by simp, by simp, by simp⟩
  · exact ⟨by simp, by simp, by simp, by simp⟩
  · obtain ⟨r, hr, hcase⟩ := cosOfBucket_trace_mem w opt rs ev hscan
    rcases hcase with rfl | rfl
    · exact ⟨by simp, by simp, by simp, by simp⟩
    · exact ⟨by simp, by simp, by simp, by simp⟩

/-- Witness for C3: a world with no resource instances makes the command
fail with the bucket-not-found error after exactly the four setup calls. -/
theorem import_cos_scan_linear_witness :
    runE
      ⟨.ok (), .ok (), .ok (), .ok [], fun _ _ => .ok (), fun _ => .ok [],
        fun _ _ _ => false, fun _ => .ok [], fun _ _ _ => .ok ⟨.ok ("a", "s")⟩,
        .ok "pvm", fun _ => .ok ⟨"n", "queued"⟩⟩
      ⟨"", "tier3", "bucket", "reg", "obj.ova", "", "", "img", "cred",
        "iid", "iname"⟩ =
      (.error "failed to find the COS instance for the bucket mentioned: bucket",
        [.newClientCall, .newAuthCall, .newResourceControllerCall,
          .listResourceInstancesCall]) :=
  ((import_cos_scan_linear
    ⟨.ok (), .ok (), .ok (), .ok [], fun _ _ => .ok (), fun _ => .ok [],
      fun _ _ _ => false, fun _ => .ok [], fun _ _ _ => .ok ⟨.ok ("a", "s")⟩,
      .ok "pvm", fun _ => .ok ⟨"n", "queued"⟩⟩
    ⟨"", "tier3", "bucket", "reg", "obj.ova", "", "", "img", "cred",
      "iid", "iname"⟩ []
    (by decide) (by decide) rfl rfl rfl rfl).2 rfl).1

/-- C5: once the scan has found the bucket's COS instance, a missing object
named `ImageFilename` makes the command return the "failed to found the
object" error, with no credential call (list or create) and no import
call issued. -/
theorem import_object_missing (w : World) (opt : Options)
    (rs : List ResourceInstance) (r : ResourceInstance)
    (hOs : (opt.OsType != "" && !(Contains validOsType (goToLower opt.OsType))) = false)
    (hSt : (!(Contains validStorageType (goToLower opt.StorageType))) = false)
    (hc : w.newClient = .ok ())
    (ha : w.newIamAuthenticator = .ok ())
    (hrc : w.newResourceController = .ok ())
    (hli : w.listResourceInstances = .ok rs)
    (hfound : (cosOfBucket w opt rs).1 = some r)
    (hobj : w.checkIfObjectExists r.Name opt.BucketName opt.ImageFilename = false) :
    runE w opt =
      (.error ("failed to found the object " ++ opt.ImageFilename ++ " in "
          ++ opt.BucketName ++ " bucket"),
        [.newClientCall, .newAuthCall, .newResourceControllerCall,
          .listResourceInstancesCall] ++ (cosOfBucket w opt rs).2
          ++ [.checkObjectCall opt.BucketName opt.ImageFilename]) ∧
    ∀ ev ∈ (runE w opt).2,
      (∀ n, ev ≠ .listResourceKeysCall n) ∧
      (∀ n c hm, ev ≠ .createResourceKeyCall n c hm) ∧
      (∀ a, ev ≠ .importImageCall a) := by
  have hrun : runE w opt =
      (.error ("failed to found the object " ++ opt.ImageFilename ++ " in "
          ++ opt.BucketName ++ " bucket"),
        [.newClientCall, .newAuthCall, .newResourceControllerCall,
          .listResourceInstancesCall] ++ (cosOfBucket w opt rs).2
          ++ [.checkObjectCall opt.BucketName opt.ImageFilename]) := by
    simp [runE, hOs, hSt, hc, ha, hrc, hli, hfound, hobj]
  refine ⟨hrun, ?_⟩
  intro ev hev
  rw [hrun] at hev
  simp only [List.cons_append, List.nil_append, List.mem_append,
    List.mem_cons, List.mem_singleton, List.not_mem_nil, or_false] at hev
  rcases hev with rfl | rfl | rfl | rfl | hscan | rfl
  · exact ⟨by simp, by simp, by simp⟩
  · exact ⟨by simp, by simp, by simp⟩
  · exact ⟨by simp, by simp, by simp⟩
  · exact ⟨by simp, by simp, by simp⟩
  · obtain ⟨r', hr', hcase⟩ := cosOfBucket_trace_mem w opt rs ev hscan
    rcases hcase with rfl | rfl
    · exact ⟨by simp, by simp, by simp⟩
    · exact ⟨by simp, by simp, by simp⟩
  · exact ⟨by simp, by simp, by simp⟩

/-- Witness for C5: one COS instance owns the bucket but the object is
absent; the command stops right after the object check. -/
theorem import_object_missing_witness :
    runE
      ⟨.ok (), .ok (), .ok (),
        .ok [⟨"crn:v1:bluemix:public:cloud-object-storage:global", "cosname", "cosid"⟩],
        fun _ _ => .ok (), fun _ => .ok ["bucket"],
        fun _ _ _ => false, fun _ => .ok [], fun _ _ _ => .ok ⟨.ok ("a", "s")⟩,
        .ok "pvm", fun _ => .ok ⟨"n", "queued"⟩⟩
      ⟨"", "tier3", "bucket", "reg", "obj.ova", "", "", "img", "cred",
        "iid", "iname"⟩ =
      (.error "failed to found the object obj.ova in bucket bucket",
        [.newClientCall, .newAuthCall, .newResourceControllerCall,
          .listResourceInstancesCall, .newS3ClientCall "cosname",
          .listBucketsCall "cosname", .checkObjectCall "bucket" "obj.ova"]) :=
  (import_object_missing
    ⟨.ok (), .ok (), .ok (),
      .ok [⟨"crn:v1:bluemix:public:cloud-object-storage:global", "cosname", "cosid"⟩],
      fun _ _ => .ok (), fun _ => .ok ["bucket"],
      fun _ _ _ => false, fun _ => .ok [], fun _ _ _ => .ok ⟨.ok ("a", "s")⟩,
      .ok "pvm", fun _ => .ok ⟨"n", "queued"⟩⟩
    ⟨"", "tier3", "bucket", "reg", "obj.ova", "", "", "img", "cred",
      "iid", "iname"⟩
    [⟨"crn:v1:bluemix:public:cloud-object-storage:global", "cosname", "cosid"⟩]
    ⟨"crn:v1:bluemix:public:cloud-object-storage:global", "cosname", "cosid"⟩
    (by decide) (by decide) rfl rfl rfl rfl (by decide) rfl).1

/-- C4: when a key flag is empty, the command reuses the first listed
service credential named `ServiceCredName` if one exists and otherwise
creates a resource key with that name on the found COS instance with
parameter `HMAC=true`; either way the access/secret keys handed to
the import call are the ones extracted from the credential's
`cos_hmac_keys` property. -/
theorem import_credential_provisioning (w : World) (opt : Options)
    (rs : List ResourceInstance) (r : ResourceInstance)
    (keys : List ResourceKey) (pvmID : String)
    (hOs : (opt.OsType != "" && !(Contains validOsType (goToLower opt.OsType))) = false)
    (hSt : (!(Contains validStorageType (goToLower opt.StorageType))) = false)
    (hc : w.newClient = .ok ())
    (ha : w.newIamAuthenticator = .ok ())
    (hrc : w.newResourceController = .ok ())
    (hli : w.listResourceInstances = .ok rs)
    (hfound : (cosOfBucket w opt rs).1 = some r)
    (hobj : w.checkIfObjectExists r.Name opt.BucketName opt.ImageFilename = true)
    (hflag : (opt.AccessKey == "" || opt.SecretKey == "") = true)
    (hkeys : w.listResourceKeys opt.ServiceCredName = .ok keys)
    (hpvm : w.newPVMClient = .ok pvmID) :
    (∀ k rest a s, keys = k :: rest → k.cosHmacKeys = .ok (a, s) →
      credStep w opt r.ID = (.ok (a, s),
        [.listResourceKeysCall opt.ServiceCredName])) ∧
    (∀ k a s, keys = [] →
      w.createResourceKey opt.ServiceCredName r.ID true = .ok k →
      k.cosHmacKeys = .ok (a, s) →
      credStep w opt r.ID = (.ok (a, s),
        [.listResourceKeysCall opt.ServiceCredName,
          .createResourceKeyCall opt.ServiceCredName r.ID true])) ∧
    (∀ a s ctr, credStep w opt r.ID = (.ok (a, s), ctr) →
      Event.importImageCall ⟨pvmID, opt.ImageName, opt.ImageFilename,
        opt.Region, a, s, opt.BucketName, goToLower opt.OsType,
        goToLower opt.StorageType⟩ ∈ (runE w opt).2) := by
  refine ⟨?_, ?_, ?_⟩
  · intro k rest a s hk hh
    subst hk
    simp [credStep, hflag, hkeys, hh]
  · intro k a s hk hcr hh
    subst hk
    simp [credStep, hflag, hkeys, hcr, hh]
  · intro a s ctr hcred
    cases himp : w.importImage ⟨pvmID, opt.ImageName, opt.ImageFilename,
        opt.Region, a, s, opt.BucketName, goToLower opt.OsType,
        goToLower opt.StorageType⟩ with
    | error e =>
      simp [runE, hOs, hSt, hc, ha, hrc, hli, hfound, hobj, hcred, hpvm, himp]
    | ok img =>
      simp [runE, hOs, hSt, hc, ha, hrc, hli, hfound, hobj, hcred, hpvm, himp]

/-- Witness for C4: an existing service credential is reused and its HMAC
keys are the ones in the issued import call. -/
theorem import_credential_provisioning_witness :
    Event.importImageCall
        ⟨"pvm", "img", "obj.ova", "reg", "AK", "SK", "bucket", "", "tier3"⟩ ∈
      (runE
        ⟨.ok (), .ok (), .ok (),
          .ok [⟨"crn:v1:bluemix:public:cloud-object-storage:global", "cosname", "cosid"⟩],
          fun _ _ => .ok (), fun _ => .ok ["bucket"],
          fun _ _ _ => true, fun _ => .ok [⟨.ok ("AK", "SK")⟩],
          fun _ _ _ => .ok ⟨.ok ("ck1", "ck2")⟩,
          .ok "pvm", fun _ => .ok ⟨"n", "queued"⟩⟩
        ⟨"", "tier3", "bucket", "reg", "obj.ova", "", "", "img", "cred",
          "iid", "iname"⟩).2 :=
  (import_credential_provisioning
    ⟨.ok (), .ok (), .ok (),
      .ok [⟨"crn:v1:bluemix:public:cloud-object-storage:global", "cosname", "cosid"⟩],
      fun _ _ => .ok (), fun _ => .ok ["bucket"],
      fun _ _ _ => true, fun _ => .ok [⟨.ok ("AK", "SK")⟩],
      fun _ _ _ => .ok ⟨.ok ("ck1", "ck2")⟩,
      .ok "pvm", fun _ => .ok ⟨"n", "queued"⟩⟩
    ⟨"", "tier3", "bucket", "reg", "obj.ova", "", "", "img", "cred",
      "iid", "iname"⟩
    [⟨"crn:v1:bluemix:public:cloud-object-storage:global", "cosname", "cosid"⟩]
    ⟨"crn:v1:bluemix:public:cloud-object-storage:global", "cosname", "cosid"⟩
    [⟨.ok ("AK", "SK")⟩] "pvm"
    (by decide) (by decide) rfl rfl rfl rfl (by decide) rfl rfl rfl rfl).2.2
    "AK" "SK" [.listResourceKeysCall "cred"] (by decide)

/-- The stage of the command an event belongs to, in issue order; used to
show traces have no duplicate calls. -/
def evKind : Event → Nat
  | .newClientCall => 0
  | .newAuthCall => 1
  | .newResourceControllerCall => 2
  | .listResourceInstancesCall => 3
  | .newS3ClientCall _ => 4
  | .listBucketsCall _ => 5
  | .checkObjectCall _ _ => 6
  | .listResourceKeysCall _ => 7
  | .createResourceKeyCall _ _ _ => 8
  | .newPVMClientCall => 9
  | .importImageCall _ => 10

lemma scan_kind (w : World) (opt : Options) (rs : List ResourceInstance) :
    ∀ ev ∈ (cosOfBucket w opt rs).2, evKind ev = 4 ∨ evKind ev = 5 := by
  intro ev h
  obtain ⟨r, _, hc⟩ := cosOfBucket_trace_mem w opt rs ev h
  rcases hc with rfl | rfl <;> simp [evKind]

/-- Assembling a full command trace: the four setup events, then the scan
trace (kinds 4-5), then a tail of later-stage events (kinds ≥ 6). -/
lemma nodup_pre_scan_tail (w : World) (opt : Options)
    (rs : List ResourceInstance) (tail : List Event)
    (hscanN : ((cosOfBucket w opt rs).2).Nodup)
    (htail : tail.Nodup)
    (htailK : ∀ ev ∈ tail, 6 ≤ evKind ev) :
    ([Event.newClientCall, Event.newAuthCall, Event.newResourceControllerCall,
      Event.listResourceInstancesCall] ++ ((cosOfBucket w opt rs).2 ++ tail)).Nodup := by
  have hst : ((cosOfBucket w opt rs).2 ++ tail).Nodup := by
    refine List.nodup_append.mpr ⟨hscanN, htail, ?_⟩
    intro a ha hb
    rcases scan_kind w opt rs a ha with h | h <;>
      · have := htailK a hb
        omega
  refine List.nodup_append.mpr ⟨by decide, hst, ?_⟩
  intro a ha hb
  have hk : evKind a ≤ 3 := by
    have : ∀ x ∈ [Event.newClientCall, Event.newAuthCall,
        Event.newResourceControllerCall, Event.listResourceInstancesCall],
        evKind x ≤ 3 := by decide
    exact this a ha
  rcases List.mem_append.mp hb with hb | hb
  · rcases scan_kind w opt rs a hb with h | h <;> omega
  · have := htailK a hb
    omega

lemma runE_invalid_exit (w : World) (opt : Options)
    (h : (opt.OsType != "" && !(Contains validOsType (goToLower opt.OsType))) = true ∨
      (!(Contains validStorageType (goToLower opt.StorageType))) = true) :
    runE w opt = (.exit 1, []) := by
  by_cases h1 : (opt.OsType != "" && !(Contains validOsType (goToLower opt.OsType))) = true
  · simp [runE, h1]
  · rcases h with h | h
    · exact absurd h h1
    · simp [runE, h1, h]

/-- After a passing flag validation, the command never exits, issues every
SDK call at most once (when the listed instance names are distinct), and
any import call it issues carries the lower-cased OS and storage types. -/
lemma runE_valid_props (w : World) (opt : Options)
    (hOs : (opt.OsType != "" && !(Contains validOsType (goToLower opt.OsType))) = false)
    (hSt : (!(Contains validStorageType (goToLower opt.StorageType))) = false) :
    (∀ c, (runE w opt).1 ≠ .exit c) ∧
    ((∀ rs, w.listResourceInstances = .ok rs →
        (rs.map ResourceInstance.Name).Nodup) → ((runE w opt).2).Nodup) ∧
    (∀ args, Event.importImageCall args ∈ (runE w opt).2 →
      args.osType = goToLower opt.OsType ∧
      args.storageType = goToLower opt.StorageType) := by
  cases hc : w.newClient with
  | error e =>
    have hrw : runE w opt = (.error e, [.newClientCall]) := by
      simp [runE, hOs, hSt, hc]
    rw [hrw]
    exact ⟨by simp, fun _ => by simp, by simp⟩
  | ok u0 =>
  cases ha : w.newIamAuthenticator with
  | error e =>
    have hrw : runE w opt = (.error e, [.newClientCall, .newAuthCall]) := by
      simp [runE, hOs, hSt, hc, ha]
    rw [hrw]
    exact ⟨by simp, fun _ => by simp, by simp⟩
  | ok u1 =>
  cases hrc : w.newResourceController with
  | error e =>
    have hrw : runE w opt =
        (.error e, [.newClientCall, .newAuthCall, .newResourceControllerCall]) := by
      simp [runE, hOs, hSt, hc, ha, hrc]
    rw [hrw]
    exact ⟨by simp, fun _ => by simp, by simp⟩
  | ok u2 =>
  cases hli : w.listResourceInstances with
  | error e =>
    have hrw : runE w opt =
        (.error e, [.newClientCall, .newAuthCall, .newResourceControllerCall,
          .listResourceInstancesCall]) := by
      simp [runE, hOs, hSt, hc, ha, hrc, hli]
    rw [hrw]
    exact ⟨by simp, fun _ => by simp, by simp⟩
  | ok rs =>
  cases hscan : (cosOfBucket w opt rs).1 with
  | none =>
    have hrw : runE w opt =
        (.error ("failed to find the COS instance for the bucket mentioned: "
            ++ opt.BucketName),
          [.newClientCall, .newAuthCall, .newResourceControllerCall,
            .listResourceInstancesCall] ++ (cosOfBucket w opt rs).2) := by
      simp [runE, hOs, hSt, hc, ha, hrc, hli, hscan]
    refine ⟨by simp [hrw], fun hnames => ?_, ?_⟩
    · have h := nodup_pre_scan_tail w opt rs []
        (cosOfBucket_trace_nodup w opt rs (hnames rs rfl)) (by simp) (by simp)
      rw [hrw]
      simpa using h
    · intro args hmem
      rw [hrw] at hmem
      simp at hmem
      rcases scan_kind w opt rs _ hmem with h | h <;> simp [evKind] at h
  | some r =>
  cases hobj : w.checkIfObjectExists r.Name opt.BucketName opt.ImageFilename with
  | false =>
    have hrw : runE w opt =
        (.error ("failed to found the object " ++ opt.ImageFilename ++ " in "
            ++ opt.BucketName ++ " bucket"),
          [.newClientCall, .newAuthCall, .newResourceControllerCall,
            .listResourceInstancesCall] ++ (cosOfBucket w opt rs).2
            ++ [.checkObjectCall opt.BucketName opt.ImageFilename]) := by
      simp [runE, hOs, hSt, hc, ha, hrc, hli, hscan, hobj]
    refine ⟨by simp [hrw], fun hnames => ?_, ?_⟩
    · have h := nodup_pre_scan_tail w opt rs
        [.checkObjectCall opt.BucketName opt.ImageFilename]
        (cosOfBucket_trace_nodup w opt rs (hnames rs rfl)) (by simp)
        (by intro ev hev; simp at hev; subst hev; simp [evKind])
      rw [hrw]
      simpa [List.append_assoc] using h
    · intro args hmem
      rw [hrw] at hmem
      simp at hmem
      rcases scan_kind w opt rs _ hmem with h | h <;> simp [evKind] at h
  | true =>
  cases hcred : credStep w opt r.ID with
  | mk cres ctr =>
  have hctrK : ∀ ev ∈ ctr, evKind ev = 7 ∨ evKind ev = 8 := by
    intro ev hev
    have hm := credStep_trace_mem w opt r.ID ev (by rw [hcred]; exact hev)
    rcases hm with rfl | rfl <;> simp [evKind]
  have hctrN : ctr.Nodup := by
    have h := credStep_trace_nodup w opt r.ID
    rwa [hcred] at h
  cases cres with
  | error e =>
    have hrw : runE w opt =
        (.error e,
          ([Event.newClientCall, Event.newAuthCall,
            Event.newResourceControllerCall, Event.listResourceInstancesCall]
            ++ (cosOfBucket w opt rs).2
            ++ [Event.checkObjectCall opt.BucketName opt.ImageFilename])
            ++ ctr) := by
      simp [runE, hOs, hSt, hc, ha, hrc, hli, hscan, hobj, hcred]
    refine ⟨by simp [hrw], fun hnames => ?_, ?_⟩
    · have h := nodup_pre_scan_tail w opt rs
        (Event.checkObjectCall opt.BucketName opt.ImageFilename :: ctr)
        (cosOfBucket_trace_nodup w opt rs (hnames rs rfl))
        (List.nodup_cons.mpr ⟨fun hm => by
          rcases hctrK _ hm with h | h <;> simp [evKind] at h, hctrN⟩)
        (by
          intro ev hev
          rcases List.mem_cons.mp hev with rfl | hev
          · simp [evKind]
          · rcases hctrK ev hev with h | h <;> omega)
      rw [hrw]
      simpa [List.append_assoc] using h
    · intro args hmem
      rw [hrw] at hmem
      simp at hmem
      rcases hmem with hmem | hmem
      · rcases scan_kind w opt rs _ hmem with h | h <;> simp [evKind] at h
      · rcases hctrK _ hmem with h | h <;> simp [evKind] at h
  | ok p =>
  obtain ⟨a, s⟩ := p
  cases hpvm : w.newPVMClient with
  | error e =>
    have hrw : runE w opt =
        (.error e,
          (([Event.newClientCall, Event.newAuthCall,
            Event.newResourceControllerCall, Event.listResourceInstancesCall]
            ++ (cosOfBucket w opt rs).2
            ++ [Event.checkObjectCall opt.BucketName opt.ImageFilename])
            ++ ctr) ++ [Event.newPVMClientCall]) := by
      simp [runE, hOs, hSt, hc, ha, hrc, hli, hscan, hobj, hcred, hpvm]
    refine ⟨by simp [hrw], fun hnames => ?_, ?_⟩
    · have h := nodup_pre_scan_tail w opt rs
        (Event.checkObjectCall opt.BucketName opt.ImageFilename ::
          (ctr ++ [Event.newPVMClientCall]))
        (cosOfBucket_trace_nodup w opt rs (hnames rs rfl))
        (List.nodup_cons.mpr ⟨fun hm => by
            rcases List.mem_append.mp hm with hm | hm
            · rcases hctrK _ hm with h | h <;> simp [evKind] at h
            · simp at hm,
          List.nodup_append.mpr ⟨hctrN, by simp, fun x hx hx2 => by
            simp at hx2
            subst hx2
            rcases hctrK _ hx with h | h <;> simp [evKind] at h⟩⟩)
        (by
          intro ev hev
          rcases List.mem_cons.mp hev with rfl | hev
          · simp [evKind]
          · rcases List.mem_append.mp hev with hev | hev
            · rcases hctrK ev hev with h | h <;> omega
            · simp at hev
              subst hev
              simp [evKind])
      rw [hrw]
      simpa [List.append_assoc] using h
    · intro args hmem
      rw [hrw] at hmem
      simp at hmem
      rcases hmem with hmem | hmem
      · rcases scan_kind w opt rs _ hmem with h | h <;> simp [evKind] at h
      · rcases hctrK _ hmem with h | h <;> simp [evKind] at h
  | ok pvmID =>
  cases himp : w.importImage ⟨pvmID, opt.ImageName, opt.ImageFilename,
      opt.Region, a, s, opt.BucketName, goToLower opt.OsType,
      goToLower opt.StorageType⟩ with
  | error e =>
    have hrw : runE w opt =
        (.error e,
          ((([Event.newClientCall, Event.newAuthCall,
            Event.newResourceControllerCall, Event.listResourceInstancesCall]
            ++ (cosOfBucket w opt rs).2
            ++ [Event.checkObjectCall opt.BucketName opt.ImageFilename])
            ++ ctr) ++ [Event.newPVMClientCall]) ++
            [Event.importImageCall ⟨pvmID, opt.ImageName, opt.ImageFilename,
              opt.Region, a, s, opt.BucketName, goToLower opt.OsType,
              goToLower opt.StorageType⟩]) := by
      simp [runE, hOs, hSt, hc, ha, hrc, hli, hscan, hobj, hcred, hpvm, himp]
    refine ⟨by simp [hrw], fun hnames => ?_, ?_⟩
    · have h := nodup_pre_scan_tail w opt rs
        (Event.checkObjectCall opt.BucketName opt.ImageFilename ::
          (ctr ++ [Event.newPVMClientCall,
            Event.importImageCall ⟨pvmID, opt.ImageName, opt.ImageFilename,
              opt.Region, a, s, opt.BucketName, goToLower opt.OsType,
              goToLower opt.StorageType⟩]))
        (cosOfBucket_trace_nodup w opt rs (hnames rs rfl))
        (List.nodup_cons.mpr ⟨fun hm => by
            rcases List.mem_append.mp hm with hm | hm
            · rcases hctrK _ hm with h | h <;> simp [evKind] at h
            · simp at hm,
          List.nodup_append.mpr ⟨hctrN, by simp, fun x hx hx2 => by
            simp at hx2
            rcases hx2 with rfl | rfl <;>
              rcases hctrK _ hx with h | h <;> simp [evKind] at h⟩⟩)
        (by
          intro ev hev
          rcases List.mem_cons.mp hev with rfl | hev
          · simp [evKind]
          · rcases List.mem_append.mp hev with hev | hev
            · rcases hctrK ev hev with h | h <;> omega
            · simp at hev
              rcases hev with rfl | rfl <;> simp [evKind])
      rw [hrw]
      simpa [List.append_assoc] using h
    · intro args hmem
      rw [hrw] at hmem
      rcases List.mem_append.mp hmem with hmem | hmem
      · rcases List.mem_append.mp hmem with hmem | hmem
        · rcases List.mem_append.mp hmem with hmem | hmem
          · rcases List.mem_append.mp hmem with hmem | hmem
            · rcases List.mem_append.mp hmem with hmem | hmem
              · simp at hmem
              · rcases scan_kind w opt rs _ hmem with h | h <;>
                  simp [evKind] at h
            · simp at hmem
          · rcases hctrK _ hmem with h | h <;> simp [evKind] at h
        · simp at hmem
      · simp at hmem
        subst hmem
        exact ⟨rfl, rfl⟩
  | ok img =>
    have hrw : runE w opt =
        (.ok,
          ((([Event.newClientCall, Event.newAuthCall,
            Event.newResourceControllerCall, Event.listResourceInstancesCall]
            ++ (cosOfBucket w opt rs).2
            ++ [Event.checkObjectCall opt.BucketName opt.ImageFilename])
            ++ ctr) ++ [Event.newPVMClientCall]) ++
            [Event.importImageCall ⟨pvmID, opt.ImageName, opt.ImageFilename,
              opt.Region, a, s, opt.BucketName, goToLower opt.OsType,
              goToLower opt.StorageType⟩]) := by
      simp [runE, hOs, hSt, hc, ha, hrc, hli, hscan, hobj, hcred, hpvm, himp]
    refine ⟨by simp [hrw], fun hnames => ?_, ?_⟩
    · have h := nodup_pre_scan_tail w opt rs
        (Event.checkObjectCall opt.BucketName opt.ImageFilename ::
          (ctr ++ [Event.newPVMClientCall,
            Event.importImageCall ⟨pvmID, opt.ImageName, opt.ImageFilename,
              opt.Region, a, s, opt.BucketName, goToLower opt.OsType,
              goToLower opt.StorageType⟩]))
        (cosOfBucket_trace_nodup w opt rs (hnames rs rfl))
        (List.nodup_cons.mpr ⟨fun hm => by
            rcases List.mem_append.mp hm with hm | hm
            · rcases hctrK _ hm with h | h <;> simp [evKind] at h
            · simp at hm,
          List.nodup_append.mpr ⟨hctrN, by simp, fun x hx hx2 => by
            simp at hx2
            rcases hx2 with rfl | rfl <;>
              rcases hctrK _ hx with h | h <;> simp [evKind] at h⟩⟩)
        (by
          intro ev hev
          rcases List.mem_cons.mp hev with rfl | hev
          · simp [evKind]
          · rcases List.mem_append.mp hev with hev | hev
            · rcases hctrK ev hev with h | h <;> omega
            · simp at hev
              rcases hev with rfl | rfl <;> simp [evKind])
      rw [hrw]
      simpa [List.append_assoc] using h
    · intro args hmem
      rw [hrw] at hmem
      rcases List.mem_append.mp hmem with hmem | hmem
      · rcases List.mem_append.mp hmem with hmem | hmem
        · rcases List.mem_append.mp hmem with hmem | hmem
          · rcases List.mem_append.mp hmem with hmem | hmem
            · rcases List.mem_append.mp hmem with hmem | hmem
              · simp at hmem
              · rcases scan_kind w opt rs _ hmem with h | h <;>
                  simp [evKind] at h
            · simp at hmem
          · rcases hctrK _ hmem with h | h <;> simp [evKind] at h
        · simp at hmem
      · simp at hmem
        subst hmem
        exact ⟨rfl, rfl⟩

/-- C7: no SDK call is retried: within one invocation of the import
command, the trace of issued SDK calls has no duplicate entry (the listed
resource instances are assumed to have distinct names, which is what
identifies the per-instance S3 and bucket calls); each embedded
image-client operation likewise consults its SDK oracle exactly once by
construction. -/
theorem import_no_retry (w : World) (opt : Options)
    (hnames : ∀ rs, w.listResourceInstances = .ok rs →
      (rs.map ResourceInstance.Name).Nodup) :
    ((runE w opt).2).Nodup := by
  by_cases h1 :
      (opt.OsType != "" && !(Contains validOsType (goToLower opt.OsType))) = true
  · rw [runE_invalid_exit w opt (Or.inl h1)]
    simp
  · by_cases h2 : (!(Contains validStorageType (goToLower opt.StorageType))) = true
    · rw [runE_invalid_exit w opt (Or.inr h2)]
      simp
    · have hOs : (opt.OsType != ""
          && !(Contains validOsType (goToLower opt.OsType))) = false := by
        simpa using h1
      have hSt : (!(Contains validStorageType (goToLower opt.StorageType))) = false := by
        simpa using h2
      exact (runE_valid_props w opt hOs hSt).2.1 hnames

/-- Witness for C7 along a full successful import. -/
theorem import_no_retry_witness :
    ((runE
      ⟨.ok (), .ok (), .ok (),
        .ok [⟨"crn:v1:bluemix:public:cloud-object-storage:global", "cosname", "cosid"⟩],
        fun _ _ => .ok (), fun _ => .ok ["bucket"],
        fun _ _ _ => true, fun _ => .ok [⟨.ok ("AK", "SK")⟩],
        fun _ _ _ => .ok ⟨.ok ("ck1", "ck2")⟩,
        .ok "pvm", fun _ => .ok ⟨"n", "queued"⟩⟩
      ⟨"", "tier3", "bucket", "reg", "obj.ova", "", "", "img", "cred",
        "iid", "iname"⟩).2).Nodup :=
  import_no_retry
    ⟨.ok (), .ok (), .ok (),
      .ok [⟨"crn:v1:bluemix:public:cloud-object-storage:global", "cosname", "cosid"⟩],
      fun _ _ => .ok (), fun _ => .ok ["bucket"],
      fun _ _ _ => true, fun _ => .ok [⟨.ok ("AK", "SK")⟩],
      fun _ _ _ => .ok ⟨.ok ("ck1", "ck2")⟩,
      .ok "pvm", fun _ => .ok ⟨"n", "queued"⟩⟩
    ⟨"", "tier3", "bucket", "reg", "obj.ova", "", "", "img", "cred",
      "iid", "iname"⟩
    (by intro rs h; cases h; decide)

/-- C9: before any SDK call, the flags are validated case-insensitively:
the command exits with code 1 exactly when a non-empty `OsType` lower-cases
outside {aix, ibmi, redhat, sles} or `StorageType` lower-cases outside
{tier3, tier1} (so an empty `OsType` is accepted); on exit the trace is
empty (no network call was made); and any issued import call carries the
lower-cased `OsType` and `StorageType`. -/
theorem import_flag_validation (w : World) (opt : Options) :
    ((runE w opt).1 = .exit 1 ↔
      ((opt.OsType ≠ "" ∧ goToLower opt.OsType ∉ validOsType) ∨
        goToLower opt.StorageType ∉ validStorageType)) ∧
    ((runE w opt).1 = .exit 1 → (runE w opt).2 = []) ∧
    (∀ args, Event.importImageCall args ∈ (runE w opt).2 →
      args.osType = goToLower opt.OsType ∧
      args.storageType = goToLower opt.StorageType) := by
  have hcond1 : ((opt.OsType != ""
      && !(Contains validOsType (goToLower opt.OsType))) = true) ↔
      (opt.OsType ≠ "" ∧ goToLower opt.OsType ∉ validOsType) := by
    simp [Contains]
  have hcond2 : ((!(Contains validStorageType (goToLower opt.StorageType))) = true) ↔
      goToLower opt.StorageType ∉ validStorageType := by
    simp [Contains]
  by_cases h1 :
      (opt.OsType != "" && !(Contains validOsType (goToLower opt.OsType))) = true
  · have hex := runE_invalid_exit w opt (Or.inl h1)
    rw [hex]
    exact ⟨⟨fun _ => Or.inl (hcond1.mp h1), fun _ => rfl⟩, fun _ => rfl, by simp⟩
  · by_cases h2 : (!(Contains validStorageType (goToLower opt.StorageType))) = true
    · have hex := runE_invalid_exit w opt (Or.inr h2)
      rw [hex]
      exact ⟨⟨fun _ => Or.inr (hcond2.mp h2), fun _ => rfl⟩, fun _ => rfl, by simp⟩
    · have hOs : (opt.OsType != ""
          && !(Contains validOsType (goToLower opt.OsType))) = false := by
        simpa using h1
      have hSt : (!(Contains validStorageType (goToLower opt.StorageType))) = false := by
        simpa using h2
      have props := runE_valid_props w opt hOs hSt
      refine ⟨⟨fun hex => absurd hex (props.1 1), fun hor => ?_⟩,
        fun hex => absurd hex (props.1 1), props.2.2⟩
      exfalso
      rcases hor with hor | hor
      · exact h1 (hcond1.mpr hor)
      · exact h2 (hcond2.mpr hor)

/-- Witness for C9: an invalid OS type makes the command exit 1 with an
empty trace, and a valid lower-cased one does not exit. -/
theorem import_flag_validation_witness :
    (runE
      ⟨.ok (), .ok (), .ok (), .ok [], fun _ _ => .ok (), fun _ => .ok [],
        fun _ _ _ => false, fun _ => .ok [], fun _ _ _ => .ok ⟨.ok ("a", "s")⟩,
        .ok "pvm", fun _ => .ok ⟨"n", "queued"⟩⟩
      ⟨"Windows", "tier3", "bucket", "reg", "obj.ova", "", "", "img", "cred",
        "iid", "iname"⟩).1 = .exit 1 :=
  (import_flag_validation
    ⟨.ok (), .ok (), .ok (), .ok [], fun _ _ => .ok (), fun _ => .ok [],
      fun _ _ _ => false, fun _ => .ok [], fun _ _ _ => .ok ⟨.ok ("a", "s")⟩,
      .ok "pvm", fun _ => .ok ⟨"n", "queued"⟩⟩
    ⟨"Windows", "tier3", "bucket", "reg", "obj.ova", "", "", "img", "cred",
      "iid", "iname"⟩).1.mpr (Or.inl ⟨by decide, by decide⟩)
